import Mathlib

/-!
Shallow embedding of the `onerange` crate (src/src/lib.rs).

The crate defines a struct `OneRange<T, Step = ()>` with fields `start`,
`end`, `step`, a `range!` macro that normalizes several caller shapes into
that struct, per-integer-type `iter` / `into_iter` methods, a `MinMax`
trait supplying the extremal values of each integer type, and a
`RangeBounds::contains` implementation based on `partial_cmp`.

Element values of every supported fixed-width integer type (u8..u128,
i8..i128) are embedded as `Int`; a type is represented by its pair of
extremal values (`IntTy`).  The step type `usize` is embedded as `Nat`.
`Option Ordering` embeds Rust's `Option<Ordering>` returned by
`partial_cmp`; `Option (List Int)` embeds an iterator construction that may
panic (`none` = panic, as `step_by(0)` asserts at creation time).

The `range!` macro is syntactic; each caller shape is embedded as one Lean
definition whose body is the macro's fully traced expansion.  The traces
(documented on each definition) use two facts about `macro_rules`:
  * arms are tried in source order;
  * a token captured into an `$e:expr` fragment no longer matches a
    literal token matcher (so a re-expanded `$step` holding `1` does NOT
    match the literal `1` of the first arm, while a `1` written directly
    in a transcriber does).
-/

/-- A supported fixed-width integer type, given by its extremal values.
Embeds the per-type `MIN` / `MAX` associated constants of Rust. -/
structure IntTy where
  min : Int
  max : Int
deriving DecidableEq

def u8 : IntTy := ⟨0, 255⟩

def u16 : IntTy := ⟨0, 65535⟩

def u32 : IntTy := ⟨0, 4294967295⟩

def u64 : IntTy := ⟨0, 18446744073709551615⟩

def u128 : IntTy := ⟨0, 340282366920938463463374607431768211455⟩

def i8 : IntTy := ⟨-128, 127⟩

def i16 : IntTy := ⟨-32768, 32767⟩

def i32 : IntTy := ⟨-2147483648, 2147483647⟩

def i64 : IntTy := ⟨-9223372036854775808, 9223372036854775807⟩

def i128 : IntTy := ⟨-170141183460469231731687303715884105728, 170141183460469231731687303715884105727⟩

/-- The ten types instantiated by `into_iter!(u8,…,i128)` (lib.rs:110). -/
def supportedTypes : List IntTy := [u8, u16, u32, u64, u128, i8, i16, i32, i64, i128]

/-- `MinMax::min` (lib.rs:102-104): returns `Self::MIN`, ignoring its
argument (the argument only drives type inference at the call site). -/
def MinMax.min (t : IntTy) (_x : Int) : Int := t.min

/-- `MinMax::max` (lib.rs:99-101): returns `Self::MAX`, ignoring its
argument. -/
def MinMax.max (t : IntTy) (_x : Int) : Int := t.max

/-- The struct `OneRange<T, Step>` (lib.rs:7-12). -/
structure OneRange (T : Type) (Step : Type) where
  start : T
  end_ : T
  step : Step
deriving DecidableEq

/-- Macro arm 1, `($start, =$end, 1)` with a literal token `1`
(lib.rs:20-26): `OneRange { start, end, step: () }`.  Reached only when the
`1` is a plain token: written directly by the caller, or written directly
in a transcriber (arm `(..=$end)` does this). -/
def rangeClosedOne (s e : Int) : OneRange Int Unit := ⟨s, e, ()⟩

/-- Macro arm 2, `($start, =$end, $step)` (lib.rs:28-34):
`OneRange { start, end, step }`.  Also reached when a step of `1` arrives
as a captured `expr` fragment, since a fragment does not match the literal
`1` of arm 1. -/
def rangeClosedStepped (s e : Int) (k : Nat) : OneRange Int Nat := ⟨s, e, k⟩

/-- Macro arm 3, `($start, =$end)` (lib.rs:36-38).  Its transcriber is
`range!($start, $end, 1)` — the `=` is NOT forwarded.  Trace:
`range!(s, e, 1)` matches arm 5 (`($start, $end, $step)`, capturing the
plain token `1` into `$step`), which transcribes `range!(s, =e-1, $step)`;
there the re-expanded `$step` fragment no longer matches arm 1's literal
`1`, so arm 2 fires: `OneRange { start: s, end: e - 1, step: 1 }`.
Net effect: the "inclusive" shape decrements its end and yields a stepped
range with step 1 (inferred as `usize` at the crate's use sites). -/
def rangeInclusive (s e : Int) : OneRange Int Nat := rangeClosedStepped s (e - 1) 1

/-- Macro arm 4, `($start, $end)` (lib.rs:40-42), transcriber
`range!($start, $end, 1)`.  Same trace as `rangeInclusive`:
`OneRange { start: s, end: e - 1, step: 1 }`. -/
def rangeExclusive (s e : Int) : OneRange Int Nat := rangeClosedStepped s (e - 1) 1

/-- Macro arm 5 called directly, `($start, $end, $step)` (lib.rs:44-46),
transcriber `range!($start, =$end-1, $step)`: arm 2 fires (the captured
`$step` fragment never matches arm 1's literal `1`), giving
`OneRange { start: s, end: e - 1, step: k }`. -/
def rangeExclStepped (s e : Int) (k : Nat) : OneRange Int Nat := rangeClosedStepped s (e - 1) k

/-- Macro arm 6, `(..$end)` (lib.rs:48-50), transcriber
`range!(MinMax::min($end), $end, 1)`: no `=`, so arm 5 then arm 2 fire:
`OneRange { start: MIN, end: e - 1, step: 1 }`. -/
def rangeOpenExcl (t : IntTy) (e : Int) : OneRange Int Nat := rangeClosedStepped (MinMax.min t e) (e - 1) 1

/-- Macro arm 7, `(..$end, $step)` (lib.rs:52-54), transcriber
`range!(MinMax::min($end), $end, $step)`: arm 5 then arm 2 fire:
`OneRange { start: MIN, end: e - 1, step: k }`. -/
def rangeOpenExclStepped (t : IntTy) (e : Int) (k : Nat) : OneRange Int Nat := rangeClosedStepped (MinMax.min t e) (e - 1) k

/-- Macro arm 8, `(..=$end, $step)` (lib.rs:56-58), transcriber
`range!(MinMax::min($end), $end, $step)` — the `=` is NOT forwarded, so
exactly as arm 7 the trace goes through arm 5 (which subtracts 1 from the
end) and lands in arm 2: `OneRange { start: MIN, end: e - 1, step: k }`. -/
def rangeOpenInclStepped (t : IntTy) (e : Int) (k : Nat) : OneRange Int Nat := rangeClosedStepped (MinMax.min t e) (e - 1) k

/-- Macro arm 9, `(..=$end)` (lib.rs:60-62), transcriber
`range!(MinMax::min($end), =$end, 1)`: here both the `=` and the `1` are
plain tokens of the transcriber, so arm 1 matches directly:
`OneRange { start: MIN, end: e, step: () }`. -/
def rangeOpenIncl (t : IntTy) (e : Int) : OneRange Int Unit := rangeClosedOne (MinMax.min t e) e

/-- Rust's `partial_cmp` on a fixed-width integer type: total, derived
from `Ord::cmp` (less / equal / greater). -/
def intPartialCmp (a b : Int) : Option Ordering :=
  some (if a < b then Ordering.lt else if a = b then Ordering.eq else Ordering.gt)

/-- The body shared by both `RangeBounds::contains` impls (lib.rs:121-123
and lib.rs:135-137): `matches!((start.partial_cmp(item),
item.partial_cmp(&end)), (Some(Equal | Less), Some(Equal | Less)))`,
with the two `partial_cmp` directions passed in as `pc` (T vs U) and `qc`
(U vs T). -/
def containsWith {A B : Type} (pc : A → B → Option Ordering) (qc : B → A → Option Ordering)
    (s e : A) (item : B) : Bool :=
  match pc s item, qc item e with
  | some Ordering.eq, some Ordering.eq => true
  | some Ordering.eq, some Ordering.lt => true
  | some Ordering.lt, some Ordering.eq => true
  | some Ordering.lt, some Ordering.lt => true
  | _, _ => false

/-- `RangeBounds::contains` for `OneRange<T>` (unit step, lib.rs:121-123),
instantiated at an integer element type. -/
def OneRange.contains (r : OneRange Int Unit) (item : Int) : Bool :=
  containsWith intPartialCmp intPartialCmp r.start r.end_ item

/-- `RangeBounds::contains` for `OneRange<T, usize>` (lib.rs:135-137),
instantiated at an integer element type; the body is identical to the
unit-step impl. -/
def OneRange.containsS (r : OneRange Int Nat) (item : Int) : Bool :=
  containsWith intPartialCmp intPartialCmp r.start r.end_ item

/-- The element sequence of Rust's half-open `a..b` on an integer type:
`a, a+1, …, b-1` (empty when `b <= a`). -/
def rangeExclList (a b : Int) : List Int :=
  (List.range (b - a).toNat).map (fun i => a + i)

/-- The element sequence of Rust's inclusive `a..=b` on an integer type:
`a, a+1, …, b` (empty when `b < a`). -/
def rangeInclList (a b : Int) : List Int :=
  (List.range (b + 1 - a).toNat).map (fun i => a + i)

/-- Element selection of `Iterator::step_by(k)` for `k >= 1`: the elements
at indices `0, k, 2k, …` of the underlying sequence.  `n` counts down the
remaining elements to skip before the next emission. -/
def takeEveryAux (k : Nat) : Nat → List Int → List Int
  | _, [] => []
  | 0, x :: xs => x :: takeEveryAux k (k - 1) xs
  | n + 1, _ :: xs => takeEveryAux k n xs

/-- Elements at indices `0, k, 2k, …` of `xs`. -/
def takeEvery (k : Nat) (xs : List Int) : List Int := takeEveryAux k 0 xs

/-- `Iterator::step_by(step)` applied at iterator-creation time: panics
(`none`) when `step == 0`, otherwise yields every `step`-th element
starting from the first. -/
def stepBy (k : Nat) (xs : List Int) : Option (List Int) :=
  if k = 0 then none else some (takeEvery k xs)

/-- `OneRange<$t, ()>::iter` (lib.rs:68-72): returns `self.start..self.end`
— the HALF-OPEN range, although the canonical `end` field is inclusive. -/
def OneRange.iter (r : OneRange Int Unit) : List Int :=
  rangeExclList r.start r.end_

/-- `OneRange<$t, usize>::iter` (lib.rs:74-78):
`(self.start..self.end).step_by(self.step)` — half-open, then `step_by`
(which panics on a zero step). -/
def OneRange.iterS (r : OneRange Int Nat) : Option (List Int) :=
  stepBy r.step (rangeExclList r.start r.end_)

/-- `IntoIterator for OneRange<$t>` (lib.rs:80-87):
`self.start..=self.end` — the INCLUSIVE range. -/
def OneRange.intoIter (r : OneRange Int Unit) : List Int :=
  rangeInclList r.start r.end_

/-- `IntoIterator for OneRange<$t, usize>` (lib.rs:89-96):
`(self.start..=self.end).step_by(self.step)`. -/
def OneRange.intoIterS (r : OneRange Int Nat) : Option (List Int) :=
  stepBy r.step (rangeInclList r.start r.end_)

example : rangeInclusive 0 255 = ⟨0, 254, 1⟩ := rfl

example : OneRange.iter ⟨0, 5, ()⟩ = [0, 1, 2, 3, 4] := by decide

example : OneRange.intoIter ⟨0, 5, ()⟩ = [0, 1, 2, 3, 4, 5] := by decide

example : OneRange.intoIterS ⟨0, 10, 2⟩ = some [0, 2, 4, 6, 8, 10] := by decide

example : OneRange.iterS ⟨0, 4, 2⟩ = some [0, 2] := by decide

example : OneRange.contains ⟨0, 254, ()⟩ 255 = false := by decide

example : rangeOpenIncl u8 5 = ⟨0, 5, ()⟩ := rfl

theorem containsWith_int_iff (s e x : Int) :
    containsWith intPartialCmp intPartialCmp s e x = true ↔ s ≤ x ∧ x ≤ e := by
  simp only [containsWith, intPartialCmp]
  split_ifs <;> simp <;> omega

theorem containsWith_undefined {A B : Type} (pc : A → B → Option Ordering)
    (qc : B → A → Option Ordering) (s e : A) (x : B)
    (h : pc s x = none ∨ qc x e = none) : containsWith pc qc s e x = false := by
  rcases h with h | h <;> rcases h1 : pc s x with _ | o1 <;> rcases h2 : qc x e with _ | o2 <;>
    simp_all [containsWith]

theorem containsWith_int_false (s e x : Int) (h : e < s) :
    containsWith intPartialCmp intPartialCmp s e x = false := by
  cases hc : containsWith intPartialCmp intPartialCmp s e x
  · rfl
  · have := (containsWith_int_iff s e x).mp hc
    omega

theorem rangeExclList_eq_nil (a b : Int) (h : b ≤ a) : rangeExclList a b = [] := by
  unfold rangeExclList
  have h0 : (b - a).toNat = 0 := by omega
  rw [h0]
  rfl

theorem rangeInclList_eq_nil (a b : Int) (h : b < a) : rangeInclList a b = [] := by
  unfold rangeInclList
  have h0 : (b + 1 - a).toNat = 0 := by omega
  rw [h0]
  rfl

/-- C1: the claim says the closed builder shape `start, =end` produces the
canonical triple (start, end, unit) with the end unchanged, and that the
range built from start 0 and inclusive end 255 at u8 satisfies
contains(255) == true.  The code refutes it: arm `($start, =$end)`
transcribes `range!($start, $end, 1)` without the `=`, so the expansion
runs through the exclusive-end arm and yields (0, 254, step 1); contains
255 is false. -/
theorem inclusiveArm_eval :
    rangeInclusive 0 255 = rangeClosedStepped 0 254 1
    ∧ OneRange.containsS (rangeInclusive 0 255) 255 = false := by
  exact ⟨rfl, by decide⟩

/-- C2: the claim says by-reference `iter` and by-value `into_iter`
enumerate identical sequences.  The code refutes it: `iter` returns the
half-open `start..end` while `into_iter` returns the inclusive
`start..=end`, so on the unit-step range (0, 5) they differ. -/
theorem iterModes_differ_eval :
    OneRange.iter ⟨0, 5, ()⟩ = [0, 1, 2, 3, 4]
    ∧ OneRange.intoIter ⟨0, 5, ()⟩ = [0, 1, 2, 3, 4, 5] := by
  decide

/-- C3: the claim says unit-step iteration visits every integer of the
inclusive interval [start, end], including end itself.  By-value
iteration does, but by-reference `iter` is built from the half-open
`start..end` and omits end: on the range (0, 5) the value 5 is produced
by `into_iter` but not by `iter`. -/
theorem unitIter_omits_end_eval :
    (5 : Int) ∈ OneRange.intoIter ⟨0, 5, ()⟩ ∧ (5 : Int) ∉ OneRange.iter ⟨0, 5, ()⟩ := by
  decide

/-- C4: contains(item) is true iff start <= item <= end (both ends
inclusive), for the unit-step impl and the stepped impl alike, and it
returns false (without panicking) whenever either directed partial
comparison is undefined. -/
theorem contains_characterization :
    (∀ (r : OneRange Int Unit) (x : Int), r.contains x = true ↔ r.start ≤ x ∧ x ≤ r.end_)
    ∧ (∀ (r : OneRange Int Nat) (x : Int), r.containsS x = true ↔ r.start ≤ x ∧ x ≤ r.end_)
    ∧ (∀ (A B : Type) (pc : A → B → Option Ordering) (qc : B → A → Option Ordering)
        (s e : A) (x : B),
        pc s x = none ∨ qc x e = none → containsWith pc qc s e x = false) :=
  ⟨fun r x => containsWith_int_iff r.start r.end_ x,
   fun r x => containsWith_int_iff r.start r.end_ x,
   fun _ _ pc qc s e x h => containsWith_undefined pc qc s e x h⟩

theorem contains_characterization_witness :
    OneRange.contains ⟨0, 255, ()⟩ 255 = true
    ∧ containsWith (fun _ _ => (none : Option Ordering)) intPartialCmp (0 : Int) 1 (0 : Int) = false :=
  ⟨(contains_characterization.1 ⟨0, 255, ()⟩ 255).mpr (by norm_num),
   contains_characterization.2.2 Int Int _ _ 0 1 0 (Or.inl rfl)⟩

/-- C5: the claim says iterating the canonical stepped range (a, b, k)
with a <= b, k >= 1 yields the arithmetic progression up to and including
the largest value <= b, in both modes.  By-value iteration does, but
by-reference `iter` walks the half-open `start..end` and drops the last
element of the progression whenever that element equals b: on (0, 4) with
step 2 it yields [0, 2] instead of [0, 2, 4]. -/
theorem steppedIter_omits_last_eval :
    OneRange.iterS ⟨0, 4, 2⟩ = some [0, 2]
    ∧ OneRange.intoIterS ⟨0, 4, 2⟩ = some [0, 2, 4] := by
  decide

/-- C6: the claim says the half-open shape `a, b` and the closed shape
`a, =b-1` build equivalent ranges.  The code refutes it: because the
closed arm itself decrements (see C1), `range!(0, 2)` has inclusive end 1
while `range!(0, =1)` has inclusive end 0, and the probe 1 distinguishes
them. -/
theorem halfOpen_closed_inequiv_eval :
    OneRange.containsS (rangeExclusive 0 2) 1 = true
    ∧ OneRange.containsS (rangeInclusive 0 1) 1 = false := by
  decide

/-- C7: the open-start inclusive shape `..=end` canonicalizes to
(MIN(T), end, unit) for every supported type, and for u8 the range
`..=5` enumerates (by value, as in the crate's own range_open test)
exactly 0, 1, 2, 3, 4, 5. -/
theorem openStartInclusive_canonical :
    (∀ (t : IntTy) (e : Int), rangeOpenIncl t e = OneRange.mk t.min e ())
    ∧ OneRange.intoIter (rangeOpenIncl u8 5) = [0, 1, 2, 3, 4, 5] :=
  ⟨fun _ _ => rfl, by decide⟩

/-- C8: the claim says `..=end, step` canonicalizes to (MIN(T), end, step)
with the end kept inclusive.  The code refutes it: arm `(..=$end, $step)`
transcribes `range!(MinMax::min($end), $end, $step)` without the `=`, so
the expansion passes through the exclusive-end arm and the end is
decremented: `..=10, 2` at u8 becomes (0, 9, 2) and its by-value
iteration stops at 8 instead of 10. -/
theorem openInclStepped_decrements_eval :
    rangeOpenInclStepped u8 10 2 = rangeClosedStepped 0 9 2
    ∧ OneRange.intoIterS (rangeOpenInclStepped u8 10 2) = some [0, 2, 4, 6, 8] := by
  decide

/-- C9 counterexample: the claim quantifies over every inverted range
value, but an inverted stepped range with step 0 does not iterate zero
elements — iterator creation panics (step_by(0) asserts), so by-value
iteration on (5, 3, step 0) does not yield the empty sequence. -/
theorem inverted_zero_step_panics :
    OneRange.intoIterS ⟨5, 3, 0⟩ = none ∧ OneRange.intoIterS ⟨5, 3, 0⟩ ≠ some [] := by
  decide

/-- C9 (amended): for every inverted range (start > end) with unit step,
or with an explicit step of at least 1, contains returns false for every
probe and both iteration modes yield zero elements without panicking. -/
theorem inverted_range_empty (s e : Int) (h : e < s) :
    (∀ x : Int, OneRange.contains ⟨s, e, ()⟩ x = false)
    ∧ (∀ (k : Nat) (x : Int), OneRange.containsS ⟨s, e, k⟩ x = false)
    ∧ OneRange.iter ⟨s, e, ()⟩ = []
    ∧ OneRange.intoIter ⟨s, e, ()⟩ = []
    ∧ (∀ k : Nat, 1 ≤ k →
        OneRange.iterS ⟨s, e, k⟩ = some [] ∧ OneRange.intoIterS ⟨s, e, k⟩ = some []) := by
  refine ⟨fun x => containsWith_int_false s e x h,
    fun k x => containsWith_int_false s e x h, ?_, ?_, ?_⟩
  · exact rangeExclList_eq_nil s e (le_of_lt h)
  · exact rangeInclList_eq_nil s e h
  · intro k hk
    have hk0 : k ≠ 0 := by omega
    constructor
    · show stepBy k (rangeExclList s e) = some []
      rw [rangeExclList_eq_nil s e (le_of_lt h)]
      simp [stepBy, hk0, takeEvery, takeEveryAux]
    · show stepBy k (rangeInclList s e) = some []
      rw [rangeInclList_eq_nil s e h]
      simp [stepBy, hk0, takeEvery, takeEveryAux]

theorem inverted_range_empty_witness :
    OneRange.contains ⟨5, 3, ()⟩ 4 = false ∧ OneRange.intoIterS ⟨5, 3, 2⟩ = some [] :=
  ⟨(inverted_range_empty 5 3 (by norm_num)).1 4,
   ((inverted_range_empty 5 3 (by norm_num)).2.2.2.2 2 (by norm_num)).2⟩

/-- C10: creating an explicitly stepped iterator (by reference or by
value) succeeds — and consuming it is total — whenever the step is at
least 1; when the step is 0 both modes panic at iterator creation, so the
zero-step branch is unreachable under the precondition step >= 1. -/
theorem steppedIteration_panic_iff_zero_step (s e : Int) (k : Nat) :
    (1 ≤ k → (OneRange.iterS ⟨s, e, k⟩).isSome = true
      ∧ (OneRange.intoIterS ⟨s, e, k⟩).isSome = true)
    ∧ (k = 0 → OneRange.iterS ⟨s, e, k⟩ = none ∧ OneRange.intoIterS ⟨s, e, k⟩ = none) := by
  constructor
  · intro hk
    have hk0 : k ≠ 0 := by omega
    constructor <;> simp [OneRange.iterS, OneRange.intoIterS, stepBy, hk0]
  · intro hk
    subst hk
    constructor <;> simp [OneRange.iterS, OneRange.intoIterS, stepBy]

theorem steppedIteration_panic_iff_zero_step_witness :
    (OneRange.iterS ⟨0, 10, 2⟩).isSome = true ∧ (OneRange.intoIterS ⟨0, 10, 2⟩).isSome = true :=
  (steppedIteration_panic_iff_zero_step 0 10 2).1 (by norm_num)
